import Mathlib

/-!
Shallow embedding of the `PriorityETNIP1Transaction` class of
electroneum-web3.js (web3-eth-accounts, file etnip1.ts) together with the
byte / RLP primitives it relies on, and proofs settling the frozen claims
about it.

Conventions of the embedding:
* machine byte strings (`Uint8Array`) are `List Nat` with entries < 256;
* JavaScript `bigint` values are `Nat` (they are non-negative everywhere in
  scope; the code rejects negatives at conversion time);
* `undefined` is `Option.none`;
* a constructor or method that can `throw` returns `Except TxError _`;
* the external cryptographic primitives (keccak256, secp256k1 sign and
  recover) are parameters of the functions that use them: every claim in
  scope is about control flow and byte-level structure, not about the
  mathematics of the curve.
-/

namespace ETNIP1

/-- Byte strings (`Uint8Array`): lists of byte values. -/
abbrev Bytes := List Nat

/-! ## Constants (constants.js) -/

/-- `MAX_INTEGER = 2^256 - 1`. -/
def MAX_INTEGER : Nat := 2 ^ 256 - 1

/-- The order of the secp256k1 curve. -/
def SECP256K1_ORDER : Nat :=
  0xFFFFFFFFFFFFFFFFFFFFFFFFFFFFFFFEBAAEDCE6AF48A03BBFD25E8CD0364141

/-- `SECP256K1_ORDER_DIV_2`: half the curve order (floor division). -/
def SECP256K1_ORDER_DIV_2 : Nat := SECP256K1_ORDER / 2

/-! ## Numeric / byte primitives (common/utils.js, web3-utils)

`natToBEBytes` is the minimal big-endian byte rendering of a natural
number (empty for zero); it embeds `bigIntToUnpaddedUint8Array`.  Written
with a fuel argument so that it is structurally recursive and reduces in
the kernel. -/

def natToBEBytesAux : Nat → Nat → Bytes
  | 0, _ => []
  | fuel + 1, n => if n = 0 then [] else natToBEBytesAux fuel (n / 256) ++ [n % 256]

/-- `bigIntToUnpaddedUint8Array`: minimal big-endian bytes, empty for 0. -/
def natToBEBytes (n : Nat) : Bytes := natToBEBytesAux n n

/-- `uint8ArrayToBigInt`: big-endian bytes to a natural number. -/
def uint8ArrayToBigInt (b : Bytes) : Nat := b.foldl (fun acc x => acc * 256 + x) 0

/-- `toUint8Array` applied to a `bigint`: hex string of the number padded
to an even number of digits, then bytes.  For 0 this is the single byte
`0x00` (hex "0" pads to "00"); for positive numbers it coincides with the
minimal big-endian bytes. -/
def bigToBytesPadded (n : Nat) : Bytes := if n = 0 then [0] else natToBEBytes n

/-- A numeric field of a transaction-data dictionary as supplied by a
caller: either a `bigint` or a raw `Uint8Array` byte form.  (String and
number inputs normalize to one of these two before use.) -/
inductive NumInput where
  | big : Nat → NumInput
  | bytes : Bytes → NumInput
deriving DecidableEq, Repr

/-- `toUint8Array(x === '' ? '0x' : x)` on an optional numeric field:
`undefined` and the empty byte form give the empty byte string, a
`bigint` gives its even-padded hex bytes, a byte form passes through. -/
def toU8 : Option NumInput → Bytes
  | none => []
  | some (.big n) => bigToBytesPadded n
  | some (.bytes b) => b

/-! ## RLP codec (@ethereumjs/rlp), encoding side -/

/-- A recursive RLP value: a byte string or a list of RLP values. -/
inductive RLPValue where
  | bytes : Bytes → RLPValue
  | list : List RLPValue → RLPValue
deriving Repr

/-- Length prefix of the RLP encoding: short form for payloads up to 55
bytes, long form with a big-endian length otherwise. -/
def rlpEncLen (offset len : Nat) : Bytes :=
  if len < 56 then [offset + len]
  else
    let lb := natToBEBytes len
    (offset + 55 + lb.length) :: lb

/-- RLP encoding of a byte string. -/
def rlpEncBytes (b : Bytes) : Bytes :=
  match b with
  | [x] => if x < 0x80 then [x] else rlpEncLen 0x80 1 ++ [x]
  | _ => rlpEncLen 0x80 b.length ++ b

mutual

/-- RLP encoding of a value. -/
def RLPValue.encode : RLPValue → Bytes
  | .bytes b => rlpEncBytes b
  | .list xs =>
      let payload := RLPValue.encodeList xs
      rlpEncLen 0xc0 payload.length ++ payload

/-- Concatenated RLP encodings of a list of values. -/
def RLPValue.encodeList : List RLPValue → Bytes
  | [] => []
  | x :: xs => x.encode ++ RLPValue.encodeList xs

end

/-- Decidable equality of results, for evaluating the embedding at
concrete inputs. -/
instance {e a : Type} [DecidableEq e] [DecidableEq a] : DecidableEq (Except e a)
  | .ok x, .ok y =>
      if h : x = y then .isTrue (h ▸ rfl)
      else .isFalse fun c => h (Except.ok.inj c)
  | .error x, .error y =>
      if h : x = y then .isTrue (h ▸ rfl)
      else .isFalse fun c => h (Except.error.inj c)
  | .ok _, .error _ => .isFalse fun c => Except.noConfusion c
  | .error _, .ok _ => .isFalse fun c => Except.noConfusion c

/-! ## Errors

One constructor per error kind of the spec's taxonomy that the code in
scope can raise. -/

inductive TxError where
  | WrongFieldCount
  | InvalidFieldEncoding
  | InvalidFieldShape
  | IntegerOverflow
  | FeeOrderingViolation
  | InvalidSignatureParity
  | HighSSignature
  | InvalidKeyLength
  | InvalidSignature
  | NotSigned
  | UnsupportedUpgrade
deriving DecidableEq, Repr

/-! ## Capability registry and options -/

/-- Modelled from the spec: the Common (capability registry) class is not
under src/; the transaction consults it only for `chainId()`,
`gteHardfork(homestead)` and `isActivatedEIP(1559)`, so it is embedded as
a record of exactly those three observations. -/
structure CommonModel where
  chainId : Nat
  gteHomestead : Bool
  eip1559Active : Bool
deriving DecidableEq, Repr

/-- `TxOptions`: the freeze flag (default true) and an optional Common. -/
structure TxOptions where
  freeze : Option Bool := none
  common : Option CommonModel := none
deriving DecidableEq, Repr

/-- Modelled from the spec: `_getCommon` (baseTransaction.ts, not under
src/) returns the Common passed in the options, or a default registry
derived from the supplied chain id (the default has the London-era
upgrades of scope active). -/
def getCommonModel (c : Option CommonModel) (chainIdBytes : Bytes) : CommonModel :=
  c.getD { chainId := uint8ArrayToBigInt chainIdBytes,
           gteHomestead := true, eip1559Active := true }

/-! ## Access lists -/

/-- One access-list entry: an address and its storage keys, in byte form
(`AccessListUint8Array` item). -/
structure AccessListItem where
  address : Bytes
  storageKeys : List Bytes
deriving DecidableEq, Repr

/-- Modelled from the spec: `verifyAccessList` (utils.js, not under src/)
requires every entry to hold a 20-byte address and 32-byte storage keys. -/
def verifyAccessList (al : List AccessListItem) : Bool :=
  al.all fun item =>
    item.address.length = 20 && item.storageKeys.all fun k => k.length = 32

/-- RLP shape of an access list, as produced by `raw()`. -/
def accessListToRLP (al : List AccessListItem) : RLPValue :=
  .list (al.map fun item =>
    .list [.bytes item.address, .list (item.storageKeys.map .bytes)])

/-! ## Transaction data dictionary (`PriorityETNIP1TxData`) -/

/-- The constructor input dictionary.  Every field is optional
(`undefined` allowed); numeric fields may arrive as `bigint` or as raw
bytes. -/
structure TxData where
  chainId : Option NumInput := none
  nonce : Option NumInput := none
  maxPriorityFeePerGas : Option NumInput := none
  maxFeePerGas : Option NumInput := none
  gasLimit : Option NumInput := none
  «to» : Option Bytes := none
  value : Option NumInput := none
  data : Option Bytes := none
  accessList : Option (List AccessListItem) := none
  v : Option NumInput := none
  r : Option NumInput := none
  s : Option NumInput := none
  pV : Option NumInput := none
  pR : Option NumInput := none
  pS : Option NumInput := none
deriving DecidableEq, Repr

/-! ## The constructed transaction -/

/-- A successfully constructed `PriorityETNIP1Transaction`: the readonly
fields the class carries after its constructor returns.  `frozen` records
whether `Object.freeze(this)` ran. -/
structure Tx where
  chainId : Nat
  nonce : Nat
  maxPriorityFeePerGas : Nat
  maxFeePerGas : Nat
  gasLimit : Nat
  «to» : Option Bytes
  value : Nat
  data : Bytes
  accessList : List AccessListItem
  v : Option Nat
  r : Option Nat
  s : Option Nat
  pV : Option Nat
  pR : Option Nat
  pS : Option Nat
  common : CommonModel
  txOptions : TxOptions
  frozen : Bool
deriving DecidableEq, Repr

/-- Optional signature component as stored: defined iff its byte form is
non-empty (`xB.length > 0 ? uint8ArrayToBigInt(xB) : undefined`). -/
def parseOptSig (o : Option NumInput) : Option Nat :=
  let b := toU8 o
  if b.length > 0 then some (uint8ArrayToBigInt b) else none

/-- The record of fields the constructor assigns when every validation
passes, computed from the data dictionary and options. -/
def mkTxFrom (td : TxData) (opts : TxOptions) : Tx :=
  let common := getCommonModel opts.common (toU8 td.chainId)
  let toB := td.«to».getD []
  { chainId := common.chainId
    nonce := uint8ArrayToBigInt (toU8 td.nonce)
    maxPriorityFeePerGas := uint8ArrayToBigInt (toU8 td.maxPriorityFeePerGas)
    maxFeePerGas := uint8ArrayToBigInt (toU8 td.maxFeePerGas)
    gasLimit := uint8ArrayToBigInt (toU8 td.gasLimit)
    «to» := if toB.length > 0 then some toB else none
    value := uint8ArrayToBigInt (toU8 td.value)
    data := td.data.getD []
    accessList := td.accessList.getD []
    v := parseOptSig td.v
    r := parseOptSig td.r
    s := parseOptSig td.s
    pV := parseOptSig td.pV
    pR := parseOptSig td.pR
    pS := parseOptSig td.pS
    common := common
    txOptions := opts
    frozen := opts.freeze.getD true }

/-- Bound-256 check on an optional value (undefined values are skipped,
as in `_validateCannotExceedMaxInteger`). -/
def optExceedsMax : Option Nat → Bool
  | none => false
  | some n => decide (n > MAX_INTEGER)

/-- Parity check body of `_validateYParity` for one component: an error
iff the component is defined and not 0 or 1. -/
def badParity : Option Nat → Bool
  | none => false
  | some n => decide (n ≠ 0 ∧ n ≠ 1)

/-- High-s check body of `_validateHighS` for one component under a given
registry: an error iff homestead is active, the component is defined and
exceeds half the curve order. -/
def badHighS (gteHomestead : Bool) : Option Nat → Bool
  | none => false
  | some n => gteHomestead && decide (n > SECP256K1_ORDER_DIV_2)

/-- The `PriorityETNIP1Transaction` constructor (together with the
`BaseTransaction` super-constructor, whose field parsing and bound checks
on nonce, gasLimit, value, r, s are modelled from the spec since
baseTransaction.ts is not under src/).  The check order follows the
source: base bound checks, EIP-1559 activation, access-list verification,
fee-field bound checks, `gasLimit * maxFeePerGas` overflow, fee ordering,
y-parity, high-s, then freeze.

Faithful to the source slip at etnip1.ts lines 216-221: the object passed
to `_validateCannotExceedMaxInteger` names `pR: this.pR, pS: this.pS`,
but `this.pR` and `this.pS` are only assigned at lines 227-229, so the
values validated there are `undefined` and the bound-256 check never
applies to pR and pS.  The embedding therefore checks only the two fee
fields at that point. -/
def fromTxDataImpl (td : TxData) (opts : TxOptions) : Except TxError Tx :=
  let tx := mkTxFrom td opts
  if optExceedsMax (some tx.nonce) || optExceedsMax (some tx.gasLimit)
      || optExceedsMax (some tx.value) || optExceedsMax tx.r || optExceedsMax tx.s then
    .error .IntegerOverflow
  else if !tx.common.eip1559Active then
    .error .UnsupportedUpgrade
  else if !verifyAccessList tx.accessList then
    .error .InvalidFieldShape
  else if optExceedsMax (some tx.maxFeePerGas)
      || optExceedsMax (some tx.maxPriorityFeePerGas)
      || optExceedsMax none || optExceedsMax none then
    .error .IntegerOverflow
  else if tx.gasLimit * tx.maxFeePerGas > MAX_INTEGER then
    .error .IntegerOverflow
  else if tx.maxFeePerGas < tx.maxPriorityFeePerGas then
    .error .FeeOrderingViolation
  else if badParity tx.v || badParity tx.pV then
    .error .InvalidSignatureParity
  else if badHighS tx.common.gteHomestead tx.s
      || badHighS tx.common.gteHomestead tx.pS then
    .error .HighSSignature
  else
    .ok tx

/-- `fromTxData`: the public factory is a direct constructor call. -/
def fromTxData (td : TxData) (opts : TxOptions) : Except TxError Tx :=
  fromTxDataImpl td opts

/-- `getUpfrontCost(baseFee)`: the inclusion fee per gas is the smaller
of maxPriorityFeePerGas and `maxFeePerGas - baseFee`; computed over the
integers since the bigint subtraction may go negative. -/
def Tx.getUpfrontCost (tx : Tx) (baseFee : Int) : Int :=
  let prio : Int := tx.maxPriorityFeePerGas
  let maxBase : Int := (tx.maxFeePerGas : Int) - baseFee
  let inclusionFeePerGas : Int := if prio < maxBase then prio else maxBase
  let gasPrice : Int := inclusionFeePerGas + baseFee
  (tx.gasLimit : Int) * gasPrice + (tx.value : Int)

/-! ## Raw values and serialization -/

/-- `TRANSACTION_TYPE` of the priority variant. -/
def TRANSACTION_TYPE : Nat := 64

/-- `TRANSACTION_TYPE_UINT8ARRAY = hexToBytes('40')`. -/
def TRANSACTION_TYPE_UINT8ARRAY : Bytes := [0x40]

/-- An optional signature field in `raw()`: unpadded bytes when defined,
the empty byte string when absent. -/
def optFieldBytes : Option Nat → Bytes
  | some n => natToBEBytes n
  | none => []

/-- `raw()`: the 15 ordered values of the priority variant, as RLP input. -/
def Tx.raw (tx : Tx) : List RLPValue :=
  [ .bytes (natToBEBytes tx.chainId),
    .bytes (natToBEBytes tx.nonce),
    .bytes (natToBEBytes tx.maxPriorityFeePerGas),
    .bytes (natToBEBytes tx.maxFeePerGas),
    .bytes (natToBEBytes tx.gasLimit),
    .bytes (tx.«to».getD []),
    .bytes (natToBEBytes tx.value),
    .bytes tx.data,
    accessListToRLP tx.accessList,
    .bytes (optFieldBytes tx.v),
    .bytes (optFieldBytes tx.r),
    .bytes (optFieldBytes tx.s),
    .bytes (optFieldBytes tx.pV),
    .bytes (optFieldBytes tx.pR),
    .bytes (optFieldBytes tx.pS) ]

/-- `serialize()`: type marker byte followed by the RLP encoding of the
full 15-value array. -/
def Tx.serialize (tx : Tx) : Bytes :=
  TRANSACTION_TYPE_UINT8ARRAY ++ (RLPValue.list tx.raw).encode

/-- `getMessageToSign(hashMessage)`: type marker byte followed by the RLP
encoding of only the first 9 raw values (`raw().slice(0, 9)`), hashed
with keccak256 when `hashMessage` is true.  The digest primitive is a
parameter. -/
def Tx.getMessageToSign (keccak : Bytes → Bytes) (tx : Tx)
    (hashMessage : Bool) : Bytes :=
  let base := tx.raw.take 9
  let message := TRANSACTION_TYPE_UINT8ARRAY ++ (RLPValue.list base).encode
  if hashMessage then keccak message else message

/-- `getMessageToVerifySignature()` = `getMessageToSign()` (hashed). -/
def Tx.getMessageToVerifySignature (keccak : Bytes → Bytes) (tx : Tx) : Bytes :=
  tx.getMessageToSign keccak true

/-! ## Signed-state predicates and hash -/

/-- `isSigned()`: true iff all six signature components are defined. -/
def Tx.isSigned (tx : Tx) : Bool :=
  !(tx.v.isNone || tx.r.isNone || tx.s.isNone
    || tx.pV.isNone || tx.pR.isNone || tx.pS.isNone)

/-- `hash()`: throws `NotSigned` on an unsigned transaction, otherwise the
keccak256 digest of `serialize()`.  (The frozen-instance cache of the
source stores this same value and is value-transparent, so it does not
appear in the embedding.) -/
def Tx.hash (keccak : Bytes → Bytes) (tx : Tx) : Except TxError Bytes :=
  if !tx.isSigned then .error .NotSigned
  else .ok (keccak tx.serialize)

/-- `_validateHighS()` as re-run by the recovery methods: first the s
component, then the pS component. -/
def Tx.validateHighS (tx : Tx) : Except TxError Unit :=
  if badHighS tx.common.gteHomestead tx.s then .error .HighSSignature
  else if badHighS tx.common.gteHomestead tx.pS then .error .HighSSignature
  else .ok ()

/-- `getSenderAndPriorityPublicKey()`: `NotSigned` unless signed; re-runs
the high-s validation; then recovers one public key per signature set
from the same unsigned-message digest, failing whole with
`InvalidSignature` when either recovery fails.  `ecrecover` (a secp256k1
primitive, external to the repository) is a parameter returning `none`
when recovery is mathematically impossible. -/
def Tx.getSenderAndPriorityPublicKey (keccak : Bytes → Bytes)
    (ecrecover : Bytes → Nat → Bytes → Bytes → Option Bytes)
    (tx : Tx) : Except TxError (Bytes × Bytes) :=
  if !tx.isSigned then .error .NotSigned
  else
    match tx.validateHighS with
    | .error e => .error e
    | .ok _ =>
      let msgHash := tx.getMessageToVerifySignature keccak
      match ecrecover msgHash (tx.v.getD 0 + 27)
              (natToBEBytes (tx.r.getD 0)) (natToBEBytes (tx.s.getD 0)),
            ecrecover msgHash (tx.pV.getD 0 + 27)
              (natToBEBytes (tx.pR.getD 0)) (natToBEBytes (tx.pS.getD 0)) with
      | some pk, some pPk => .ok (pk, pPk)
      | _, _ => .error .InvalidSignature

/-! ## Signing -/

/-- Output of the low-level deterministic signing primitive
(`secp256k1.sign`): 64 compact bytes `r || s` plus a recovery bit. -/
structure SigRaw where
  compact : Bytes
  recovery : Nat
deriving DecidableEq, Repr

/-- `__ecsign`: splits the compact signature into r and s and exposes
`v = recovery + 27` (no chain id is ever passed in this class). -/
def ecsignModel (prim : Bytes → Bytes → SigRaw) (msgHash privateKey : Bytes) :
    Nat × Bytes × Bytes :=
  let sig := prim msgHash privateKey
  (sig.recovery + 27, sig.compact.take 32, (sig.compact.drop 32).take 32)

/-- `_processSignatures`: rebuilds a transaction from the current fields
plus both signature triples (parities re-normalized by subtracting 27),
with options inherited from the source instance and its Common. -/
def Tx.processSignatures (tx : Tx) (v : Nat) (r s : Bytes)
    (pV : Nat) (pR pS : Bytes) : Except TxError Tx :=
  let opts : TxOptions := { tx.txOptions with common := some tx.common }
  fromTxData
    { chainId := some (.big tx.chainId)
      nonce := some (.big tx.nonce)
      maxPriorityFeePerGas := some (.big tx.maxPriorityFeePerGas)
      maxFeePerGas := some (.big tx.maxFeePerGas)
      gasLimit := some (.big tx.gasLimit)
      «to» := tx.«to»
      value := some (.big tx.value)
      data := some tx.data
      accessList := some tx.accessList
      v := some (.big (v - 27))
      r := some (.big (uint8ArrayToBigInt r))
      s := some (.big (uint8ArrayToBigInt s))
      pV := some (.big (pV - 27))
      pR := some (.big (uint8ArrayToBigInt pR))
      pS := some (.big (uint8ArrayToBigInt pS)) }
    opts

/-- `sign(privateKey, priorityPrivateKey)`: requires both keys, each of
exactly 32 bytes; signs the hashed unsigned message once with each key
using the same primitive, and returns the fresh transaction built by
`_processSignatures`.  (The EIP-155 capability toggle in the source is
guarded by `this.type === 0` and the type of this class is 64, so that
branch is unreachable and does not appear.)  The function is pure: the
receiver `tx` is untouched and the result is a new value. -/
def Tx.sign (keccak : Bytes → Bytes) (prim : Bytes → Bytes → SigRaw)
    (tx : Tx) (privateKey : Bytes) (priorityPrivateKey : Option Bytes) :
    Except TxError Tx :=
  match priorityPrivateKey with
  | none => .error .InvalidKeyLength
  | some pk2 =>
    if privateKey.length ≠ 32 ∨ pk2.length ≠ 32 then .error .InvalidKeyLength
    else
      let msgHash := tx.getMessageToSign keccak true
      let sig := ecsignModel prim msgHash privateKey
      let pSig := ecsignModel prim msgHash pk2
      tx.processSignatures sig.1 sig.2.1 sig.2.2 pSig.1 pSig.2.1 pSig.2.2

/-! ## Construction from a decoded values array (`fromValuesArray`) -/

/-- Whether a decoded RLP slot is a (nested) list — `Array.isArray` on the
decoded value. -/
def RLPValue.isList : RLPValue → Bool
  | .list _ => true
  | .bytes _ => false

/-- The byte content of a decoded scalar slot (scalar slots of a decoded
transaction are always byte strings; a list here only arises from
malformed input, which the guarded slots reject first). -/
def RLPValue.getBytes : RLPValue → Bytes
  | .bytes b => b
  | .list _ => []

/-- `validateNoLeadingZeroes` (web3-validator) on one optional slot:
an error iff the slot is present with a non-empty byte form whose first
byte is zero. -/
def hasLeadingZero : Option RLPValue → Bool
  | none => false
  | some v => decide (v.getBytes.head? = some 0)

/-- Parse one decoded access-list entry into its byte form. -/
def parseAccessItem : RLPValue → Option AccessListItem
  | .list [.bytes addr, .list slots] =>
      (slots.mapM fun sl => match sl with
        | RLPValue.bytes b => some b
        | RLPValue.list _ => none).map fun ks => ⟨addr, ks⟩
  | _ => none

/-- Parse the decoded access-list slot.  An empty byte string iterates as
zero entries (`getAccessListData` accepts it as an empty access list); a
non-empty byte string has no well-formed entries. -/
def parseAccessListSlot : RLPValue → Option (List AccessListItem)
  | .list items => items.mapM parseAccessItem
  | .bytes [] => some []
  | .bytes _ => none

/-- `fromValuesArray(values, opts)`: accepts exactly 9 (unsigned) or 15
(signed) decoded values; `_validateNotArray` guards the chainId and v
slots; `validateNoLeadingZeroes` guards the declared numeric slots; then
the constructor is called with chainId, v and pV converted to `bigint`
and the remaining slots passed through as byte forms. -/
def fromValuesArray (values : List RLPValue) (opts : TxOptions) :
    Except TxError Tx :=
  if values.length ≠ 9 ∧ values.length ≠ 15 then .error .WrongFieldCount
  else
    let chainId := values.get? 0
    let nonce := values.get? 1
    let maxPriorityFeePerGas := values.get? 2
    let maxFeePerGas := values.get? 3
    let gasLimit := values.get? 4
    let toSlot := values.get? 5
    let value := values.get? 6
    let dataSlot := values.get? 7
    let accessList := values.get? 8
    let v := values.get? 9
    let r := values.get? 10
    let s := values.get? 11
    let pV := values.get? 12
    let pR := values.get? 13
    let pS := values.get? 14
    if (chainId.map RLPValue.isList).getD false
        || (v.map RLPValue.isList).getD false then .error .InvalidFieldShape
    else if [nonce, maxPriorityFeePerGas, maxFeePerGas, gasLimit, value,
             v, r, s, pV, pR, pS].any hasLeadingZero then
      .error .InvalidFieldEncoding
    else
      match (accessList.map parseAccessListSlot).getD (some []) with
      | none => .error .InvalidFieldShape
      | some al =>
        fromTxData
          { chainId := some (.big (uint8ArrayToBigInt
              ((chainId.map RLPValue.getBytes).getD [])))
            nonce := nonce.map fun x => .bytes x.getBytes
            maxPriorityFeePerGas := maxPriorityFeePerGas.map fun x => .bytes x.getBytes
            maxFeePerGas := maxFeePerGas.map fun x => .bytes x.getBytes
            gasLimit := gasLimit.map fun x => .bytes x.getBytes
            «to» := toSlot.map RLPValue.getBytes
            value := value.map fun x => .bytes x.getBytes
            data := dataSlot.map RLPValue.getBytes
            accessList := some al
            v := v.map fun x => .big (uint8ArrayToBigInt x.getBytes)
            r := r.map fun x => .bytes x.getBytes
            s := s.map fun x => .bytes x.getBytes
            pV := pV.map fun x => .big (uint8ArrayToBigInt x.getBytes)
            pR := pR.map fun x => .bytes x.getBytes
            pS := pS.map fun x => .bytes x.getBytes }
          opts

/-! ## Shared concrete inputs

The registry configuration of the repository's unit tests: chain id 4,
London hardfork (so the homestead upgrade and EIP-1559 are active). -/

/-- The Common of the unit tests. -/
def testCommon : CommonModel :=
  { chainId := 4, gteHomestead := true, eip1559Active := true }

/-- Default options carrying the test Common. -/
def testOpts : TxOptions := { freeze := none, common := some testCommon }

/-! ## Helper lemmas -/

theorem uint8ArrayToBigInt_append (xs : Bytes) (b : Nat) :
    uint8ArrayToBigInt (xs ++ [b]) = uint8ArrayToBigInt xs * 256 + b := by
  unfold uint8ArrayToBigInt
  rw [List.foldl_append]
  rfl

theorem natToBEBytesAux_roundtrip (fuel : Nat) : ∀ n ≤ fuel,
    uint8ArrayToBigInt (natToBEBytesAux fuel n) = n := by
  induction fuel with
  | zero =>
    intro n hn
    have : n = 0 := Nat.le_zero.mp hn
    subst this
    rfl
  | succ fuel ih =>
    intro n hn
    by_cases h0 : n = 0
    · subst h0
      simp [natToBEBytesAux, uint8ArrayToBigInt]
    · rw [natToBEBytesAux, if_neg h0, uint8ArrayToBigInt_append,
        ih (n / 256) (by omega)]
      omega

/-- Round trip: decoding the minimal big-endian bytes of `n` gives `n`. -/
theorem uint8ArrayToBigInt_natToBEBytes (n : Nat) :
    uint8ArrayToBigInt (natToBEBytes n) = n :=
  natToBEBytesAux_roundtrip n n le_rfl

/-- Round trip for the even-padded `bigint` byte form. -/
theorem uint8ArrayToBigInt_bigToBytesPadded (n : Nat) :
    uint8ArrayToBigInt (bigToBytesPadded n) = n := by
  unfold bigToBytesPadded
  by_cases h : n = 0
  · subst h
    rfl
  · rw [if_neg h]
    exact uint8ArrayToBigInt_natToBEBytes n

/-- A successful construction returns exactly the record of parsed
fields. -/
theorem fromTxDataImpl_ok {td : TxData} {opts : TxOptions} {tx : Tx}
    (h : fromTxDataImpl td opts = .ok tx) : tx = mkTxFrom td opts := by
  simp only [fromTxDataImpl] at h
  split_ifs at h
  all_goals simp_all

/-- The constructor never raises `WrongFieldCount`: that error belongs to
`fromValuesArray` alone. -/
theorem fromTxDataImpl_ne_wrongFieldCount (td : TxData) (opts : TxOptions) :
    fromTxDataImpl td opts ≠ .error .WrongFieldCount := by
  simp only [fromTxDataImpl]
  split_ifs <;> simp

/-- A successful construction implies the product bound and the fee
ordering held for the constructed fields. -/
theorem fromTxDataImpl_ok_bounds {td : TxData} {opts : TxOptions} {tx : Tx}
    (h : fromTxDataImpl td opts = .ok tx) :
    tx.gasLimit * tx.maxFeePerGas ≤ MAX_INTEGER ∧
    tx.maxPriorityFeePerGas ≤ tx.maxFeePerGas := by
  simp only [fromTxDataImpl] at h
  split_ifs at h with h1 h2 h3 h4 h5 h6 h7 h8
  cases h
  exact ⟨Nat.not_lt.mp h5, Nat.not_lt.mp h6⟩

/-- Under hypotheses that every check preceding the product check passes,
the constructor reduces to the product check, the fee-ordering check and
success. -/
theorem fromTxDataImpl_reduce (td : TxData) (opts : TxOptions)
    (hb1 : (mkTxFrom td opts).nonce ≤ MAX_INTEGER)
    (hb2 : (mkTxFrom td opts).gasLimit ≤ MAX_INTEGER)
    (hb3 : (mkTxFrom td opts).value ≤ MAX_INTEGER)
    (hb4 : optExceedsMax (mkTxFrom td opts).r = false)
    (hb5 : optExceedsMax (mkTxFrom td opts).s = false)
    (h1559 : (mkTxFrom td opts).common.eip1559Active = true)
    (hal : verifyAccessList (mkTxFrom td opts).accessList = true)
    (hf1 : (mkTxFrom td opts).maxFeePerGas ≤ MAX_INTEGER)
    (hf2 : (mkTxFrom td opts).maxPriorityFeePerGas ≤ MAX_INTEGER) :
    fromTxDataImpl td opts =
      if (mkTxFrom td opts).gasLimit * (mkTxFrom td opts).maxFeePerGas > MAX_INTEGER then
        .error .IntegerOverflow
      else if (mkTxFrom td opts).maxFeePerGas < (mkTxFrom td opts).maxPriorityFeePerGas then
        .error .FeeOrderingViolation
      else if (badParity (mkTxFrom td opts).v || badParity (mkTxFrom td opts).pV) then
        .error .InvalidSignatureParity
      else if (badHighS (mkTxFrom td opts).common.gteHomestead (mkTxFrom td opts).s
          || badHighS (mkTxFrom td opts).common.gteHomestead (mkTxFrom td opts).pS) then
        .error .HighSSignature
      else .ok (mkTxFrom td opts) := by
  have c1 : (optExceedsMax (some (mkTxFrom td opts).nonce)
      || optExceedsMax (some (mkTxFrom td opts).gasLimit)
      || optExceedsMax (some (mkTxFrom td opts).value)
      || optExceedsMax (mkTxFrom td opts).r
      || optExceedsMax (mkTxFrom td opts).s) = false := by
    rw [hb4, hb5]
    simp [optExceedsMax]
    omega
  have c4 : (optExceedsMax (some (mkTxFrom td opts).maxFeePerGas)
      || optExceedsMax (some (mkTxFrom td opts).maxPriorityFeePerGas)
      || optExceedsMax none || optExceedsMax none) = false := by
    simp [optExceedsMax]
    omega
  simp only [fromTxDataImpl, c1, c4, h1559, hal, Bool.not_true,
    Bool.false_eq_true, if_false]

/-! ## Claim theorems -/

/-- C1: a priority-variant values array is rejected with `WrongFieldCount`
unless its length is exactly 9 or exactly 15, and for those two lengths
the length check passes: the construction can no longer fail with
`WrongFieldCount`, only with a per-field validation error. -/
theorem claim_fromValuesArray_length :
    ∀ (values : List RLPValue) (opts : TxOptions),
    (values.length ≠ 9 ∧ values.length ≠ 15 →
      fromValuesArray values opts = .error .WrongFieldCount) ∧
    (values.length = 9 ∨ values.length = 15 →
      fromValuesArray values opts ≠ .error .WrongFieldCount) := by
  intro values opts
  constructor
  · intro h
    simp only [fromValuesArray, if_pos h]
  · intro h
    simp only [fromValuesArray]
    rw [if_neg (by tauto : ¬(values.length ≠ 9 ∧ values.length ≠ 15))]
    split_ifs
    · simp
    · simp
    · split
      · simp
      · exact fromTxDataImpl_ne_wrongFieldCount _ _

/-- Witness for C1: a length-8 array is rejected with `WrongFieldCount`,
a length-9 array is not. -/
theorem claim_fromValuesArray_length_witness :
    fromValuesArray (List.replicate 8 (.bytes [])) testOpts
      = .error .WrongFieldCount ∧
    fromValuesArray (List.replicate 9 (.bytes [])) testOpts
      ≠ .error .WrongFieldCount :=
  ⟨(claim_fromValuesArray_length (List.replicate 8 (.bytes [])) testOpts).1
      (by decide),
   (claim_fromValuesArray_length (List.replicate 9 (.bytes [])) testOpts).2
      (by decide)⟩

/-- C2: every successful construction satisfies
`gasLimit * maxFeePerGas ≤ 2^256 - 1`; when every check preceding the
product check passes, construction fails with `IntegerOverflow` as soon
as the product exceeds the bound; and when the remaining checks pass too,
construction succeeds whenever the product stays within the bound — in
particular at the boundary `gasLimit * maxFeePerGas = 2^256 - 1`. -/
theorem claim_gasLimit_maxFee_overflow :
    (∀ (td : TxData) (opts : TxOptions) (tx : Tx),
      fromTxDataImpl td opts = .ok tx →
      tx.gasLimit * tx.maxFeePerGas ≤ MAX_INTEGER) ∧
    (∀ (td : TxData) (opts : TxOptions),
      (mkTxFrom td opts).nonce ≤ MAX_INTEGER →
      (mkTxFrom td opts).gasLimit ≤ MAX_INTEGER →
      (mkTxFrom td opts).value ≤ MAX_INTEGER →
      optExceedsMax (mkTxFrom td opts).r = false →
      optExceedsMax (mkTxFrom td opts).s = false →
      (mkTxFrom td opts).common.eip1559Active = true →
      verifyAccessList (mkTxFrom td opts).accessList = true →
      (mkTxFrom td opts).maxFeePerGas ≤ MAX_INTEGER →
      (mkTxFrom td opts).maxPriorityFeePerGas ≤ MAX_INTEGER →
      (MAX_INTEGER < (mkTxFrom td opts).gasLimit * (mkTxFrom td opts).maxFeePerGas →
        fromTxDataImpl td opts = .error .IntegerOverflow) ∧
      ((mkTxFrom td opts).maxPriorityFeePerGas ≤ (mkTxFrom td opts).maxFeePerGas →
        badParity (mkTxFrom td opts).v = false →
        badParity (mkTxFrom td opts).pV = false →
        badHighS (mkTxFrom td opts).common.gteHomestead (mkTxFrom td opts).s = false →
        badHighS (mkTxFrom td opts).common.gteHomestead (mkTxFrom td opts).pS = false →
        (mkTxFrom td opts).gasLimit * (mkTxFrom td opts).maxFeePerGas ≤ MAX_INTEGER →
        fromTxDataImpl td opts = .ok (mkTxFrom td opts))) := by
  constructor
  · intro td opts tx h
    exact (fromTxDataImpl_ok_bounds h).1
  · intro td opts hb1 hb2 hb3 hb4 hb5 h1559 hal hf1 hf2
    rw [fromTxDataImpl_reduce td opts hb1 hb2 hb3 hb4 hb5 h1559 hal hf1 hf2]
    constructor
    · intro hlt
      rw [if_pos hlt]
    · intro hord hv hpv hhs hhps hboundary
      rw [if_neg (Nat.not_lt.mpr hboundary),
        if_neg (Nat.not_lt.mpr hord),
        if_neg (by simp [hv, hpv]),
        if_neg (by simp [hhs, hhps])]

/-- Overflowing input of the unit tests: `maxFeePerGas = 2^256 - 1` with
`gasLimit = 100`. -/
def tdOverflowing : TxData :=
  { maxFeePerGas := some (.big (2 ^ 256 - 1)),
    maxPriorityFeePerGas := some (.big 100),
    gasLimit := some (.big 100), value := some (.big 6) }

/-- Boundary input of the unit tests: `maxFeePerGas = 2^256 - 1` with
`gasLimit = 1`, so the product is exactly `2^256 - 1`. -/
def tdBoundary : TxData :=
  { maxFeePerGas := some (.big (2 ^ 256 - 1)),
    maxPriorityFeePerGas := some (.big 100),
    gasLimit := some (.big 1), value := some (.big 6) }

/-- Witness for C2: the overflowing test input fails with
`IntegerOverflow` and the exact-boundary test input succeeds. -/
theorem claim_gasLimit_maxFee_overflow_witness :
    fromTxDataImpl tdOverflowing testOpts = .error .IntegerOverflow ∧
    fromTxDataImpl tdBoundary testOpts = .ok (mkTxFrom tdBoundary testOpts) :=
  ⟨((claim_gasLimit_maxFee_overflow.2 tdOverflowing testOpts
      (by decide) (by decide) (by decide) (by decide) (by decide) (by decide)
      (by decide) (by decide) (by decide)).1 (by decide)),
   ((claim_gasLimit_maxFee_overflow.2 tdBoundary testOpts
      (by decide) (by decide) (by decide) (by decide) (by decide) (by decide)
      (by decide) (by decide) (by decide)).2 (by decide) (by decide) (by decide)
      (by decide) (by decide) (by decide))⟩

/-- C3: a construction with `maxFeePerGas < maxPriorityFeePerGas` never
produces an instance; when every check preceding the ordering check
passes, the reported failure is `FeeOrderingViolation`; and when
`maxFeePerGas ≥ maxPriorityFeePerGas` the ordering check passes, so
`FeeOrderingViolation` is never reported. -/
theorem claim_fee_ordering :
    (∀ (td : TxData) (opts : TxOptions) (tx : Tx),
      (mkTxFrom td opts).maxFeePerGas < (mkTxFrom td opts).maxPriorityFeePerGas →
      fromTxDataImpl td opts ≠ .ok tx) ∧
    (∀ (td : TxData) (opts : TxOptions),
      (mkTxFrom td opts).nonce ≤ MAX_INTEGER →
      (mkTxFrom td opts).gasLimit ≤ MAX_INTEGER →
      (mkTxFrom td opts).value ≤ MAX_INTEGER →
      optExceedsMax (mkTxFrom td opts).r = false →
      optExceedsMax (mkTxFrom td opts).s = false →
      (mkTxFrom td opts).common.eip1559Active = true →
      verifyAccessList (mkTxFrom td opts).accessList = true →
      (mkTxFrom td opts).maxFeePerGas ≤ MAX_INTEGER →
      (mkTxFrom td opts).maxPriorityFeePerGas ≤ MAX_INTEGER →
      (mkTxFrom td opts).gasLimit * (mkTxFrom td opts).maxFeePerGas ≤ MAX_INTEGER →
      (mkTxFrom td opts).maxFeePerGas < (mkTxFrom td opts).maxPriorityFeePerGas →
      fromTxDataImpl td opts = .error .FeeOrderingViolation) ∧
    (∀ (td : TxData) (opts : TxOptions),
      (mkTxFrom td opts).maxPriorityFeePerGas ≤ (mkTxFrom td opts).maxFeePerGas →
      fromTxDataImpl td opts ≠ .error .FeeOrderingViolation) := by
  refine ⟨?_, ?_, ?_⟩
  · intro td opts tx hlt h
    have hshape := fromTxDataImpl_ok h
    subst hshape
    exact absurd (fromTxDataImpl_ok_bounds h).2 (Nat.not_le.mpr hlt)
  · intro td opts hb1 hb2 hb3 hb4 hb5 h1559 hal hf1 hf2 hprod hlt
    rw [fromTxDataImpl_reduce td opts hb1 hb2 hb3 hb4 hb5 h1559 hal hf1 hf2,
      if_neg (Nat.not_lt.mpr hprod), if_pos hlt]
  · intro td opts hord
    simp only [fromTxDataImpl]
    split_ifs with h1 h2 h3 h4 h5 h6 h7 h8 <;> try simp
    omega

/-- Ordering-violating input of the unit tests: `maxFeePerGas = 1`,
`maxPriorityFeePerGas = 2`. -/
def tdBadOrdering : TxData :=
  { maxFeePerGas := some (.big 1), maxPriorityFeePerGas := some (.big 2),
    gasLimit := some (.big 100), value := some (.big 6) }

/-- Ordering-respecting input: `maxFeePerGas = 10`,
`maxPriorityFeePerGas = 8`. -/
def tdGoodOrdering : TxData :=
  { maxFeePerGas := some (.big 10), maxPriorityFeePerGas := some (.big 8),
    gasLimit := some (.big 100), value := some (.big 6) }

/-- Witness for C3 at the test vectors. -/
theorem claim_fee_ordering_witness :
    fromTxDataImpl tdBadOrdering testOpts = .error .FeeOrderingViolation ∧
    fromTxDataImpl tdGoodOrdering testOpts ≠ .error .FeeOrderingViolation ∧
    fromTxDataImpl tdBadOrdering testOpts ≠ .ok (mkTxFrom tdBadOrdering testOpts) :=
  ⟨claim_fee_ordering.2.1 tdBadOrdering testOpts
      (by decide) (by decide) (by decide) (by decide) (by decide) (by decide)
      (by decide) (by decide) (by decide) (by decide) (by decide),
   claim_fee_ordering.2.2 tdGoodOrdering testOpts (by decide),
   claim_fee_ordering.1 tdBadOrdering testOpts (mkTxFrom tdBadOrdering testOpts)
      (by decide)⟩

/-- C5: `getUpfrontCost(baseFee)` computes
`gasLimit * (baseFee + min(maxPriorityFeePerGas, maxFeePerGas - baseFee))
+ value` in exact integer arithmetic, and on the unit-test transaction
(`maxFeePerGas = 10`, `maxPriorityFeePerGas = 8`, `gasLimit = 100`,
`value = 6`) yields 806 at `baseFee = 0` and 1006 at `baseFee = 4`. -/
theorem claim_upfront_cost :
    (∀ (tx : Tx) (baseFee : Int),
      tx.getUpfrontCost baseFee =
        (tx.gasLimit : Int) * (baseFee + min (tx.maxPriorityFeePerGas : Int)
          ((tx.maxFeePerGas : Int) - baseFee)) + (tx.value : Int)) ∧
    fromTxData tdGoodOrdering testOpts = .ok (mkTxFrom tdGoodOrdering testOpts) ∧
    (mkTxFrom tdGoodOrdering testOpts).getUpfrontCost 0 = 806 ∧
    (mkTxFrom tdGoodOrdering testOpts).getUpfrontCost 4 = 1006 := by
  refine ⟨?_, by decide, by decide, by decide⟩
  intro tx baseFee
  simp only [Tx.getUpfrontCost]
  by_cases h : (tx.maxPriorityFeePerGas : Int) < (tx.maxFeePerGas : Int) - baseFee
  · rw [if_pos h, min_eq_left h.le]
    ring
  · rw [if_neg h, min_eq_right (not_lt.mp h)]
    ring

/-- The 20-byte example address of the unit tests (`0x0101...01`). -/
def exampleAddress : Bytes := List.replicate 20 1

/-- The 32-byte example storage key of the unit tests. -/
def exampleSlot : Bytes := List.replicate 32 1

/-- The unsigned example transaction of the unit tests: `data = 0x010200`,
the example recipient, one access-list entry, chain id 4. -/
def tdMessageExample : TxData :=
  { data := some [1, 2, 0], «to» := some exampleAddress,
    accessList := some [⟨exampleAddress, [exampleSlot]⟩],
    chainId := some (.big 4) }

/-- The byte sequence the spec requires for
`getMessageToSign(false)` on the example transaction. -/
def expectedUnsignedMessage : Bytes :=
  [0x40, 0xf8, 0x59, 0x04, 0x80, 0x80, 0x80, 0x80, 0x94] ++
  List.replicate 20 1 ++
  [0x80, 0x83, 0x01, 0x02, 0x00, 0xf8, 0x38, 0xf7, 0x94] ++
  List.replicate 20 1 ++
  [0xe1, 0xa0] ++ List.replicate 32 1

/-- C6: `getMessageToSign(hashed = false)` is the type marker byte 0x40
followed by the RLP encoding of only the first 9 raw values; those nine
values are exactly the unsigned-prefix fields, so all six signature
fields are excluded; and on the spec's fixed example the bytes are the
required literal sequence. -/
theorem claim_message_to_sign :
    (∀ (keccak : Bytes → Bytes) (tx : Tx),
      tx.getMessageToSign keccak false =
        TRANSACTION_TYPE_UINT8ARRAY ++ (RLPValue.list (tx.raw.take 9)).encode) ∧
    (∀ tx : Tx, tx.raw.take 9 =
      [ .bytes (natToBEBytes tx.chainId),
        .bytes (natToBEBytes tx.nonce),
        .bytes (natToBEBytes tx.maxPriorityFeePerGas),
        .bytes (natToBEBytes tx.maxFeePerGas),
        .bytes (natToBEBytes tx.gasLimit),
        .bytes (tx.«to».getD []),
        .bytes (natToBEBytes tx.value),
        .bytes tx.data,
        accessListToRLP tx.accessList ]) ∧
    fromTxData tdMessageExample testOpts = .ok (mkTxFrom tdMessageExample testOpts) ∧
    (mkTxFrom tdMessageExample testOpts).getMessageToSign (fun b => b) false
      = expectedUnsignedMessage := by
  refine ⟨fun keccak tx => rfl, fun tx => rfl, by decide, by decide⟩

/-- Data of a signed transaction: y-parities 0, all other signature
components 1 (within the low-s bound). -/
def tdSignedExample : TxData :=
  { v := some (.big 0), r := some (.big 1), s := some (.big 1),
    pV := some (.big 0), pR := some (.big 1), pS := some (.big 1) }

/-- C7: `hash()` fails with `NotSigned` exactly when not all six
signature components are present; on a signed transaction it is the
digest of `serialize()`, the full wire bytes (type marker, all 15 raw
values including both signature sets); `isSigned()` is the presence of
all six components. -/
theorem claim_hash :
    ∀ (keccak : Bytes → Bytes) (tx : Tx),
    (tx.isSigned = true ↔
      tx.v.isSome ∧ tx.r.isSome ∧ tx.s.isSome ∧
      tx.pV.isSome ∧ tx.pR.isSome ∧ tx.pS.isSome) ∧
    (tx.hash keccak = .error .NotSigned ↔ tx.isSigned = false) ∧
    (tx.isSigned = true → tx.hash keccak = .ok (keccak tx.serialize)) ∧
    tx.serialize = TRANSACTION_TYPE_UINT8ARRAY ++ (RLPValue.list tx.raw).encode := by
  intro keccak tx
  refine ⟨?_, ?_, ?_, rfl⟩
  · simp [Tx.isSigned, Option.isNone_iff_eq_none, Option.isSome_iff_ne_none,
      and_assoc]
  · cases h : tx.isSigned <;> simp [Tx.hash, h]
  · intro h
    simp [Tx.hash, h]

/-- Witness for C7: a signed unit-test transaction hashes to the digest
of its serialization; the default-constructed unsigned transaction fails
with `NotSigned`. -/
theorem claim_hash_witness :
    Tx.hash (fun b => b) (mkTxFrom tdSignedExample testOpts)
      = .ok (mkTxFrom tdSignedExample testOpts).serialize ∧
    Tx.hash (fun b => b) (mkTxFrom {} testOpts) = .error .NotSigned :=
  ⟨(claim_hash (fun b => b) (mkTxFrom tdSignedExample testOpts)).2.2.1 (by decide),
   (claim_hash (fun b => b) (mkTxFrom {} testOpts)).2.1.mpr (by decide)⟩

/-- C10: a secondary-signature component supplied to the constructor as
an empty byte form is stored as `undefined`, and a transaction whose
secondary components were all empty is not signed. -/
theorem claim_empty_secondary_sig_absent :
    ∀ (td : TxData) (opts : TxOptions) (tx : Tx),
    fromTxDataImpl td opts = .ok tx →
    (td.pV = some (.bytes []) → tx.pV = none) ∧
    (td.pR = some (.bytes []) → tx.pR = none) ∧
    (td.pS = some (.bytes []) → tx.pS = none) ∧
    (td.pV = some (.bytes []) → tx.isSigned = false) := by
  intro td opts tx h
  have hshape := fromTxDataImpl_ok h
  subst hshape
  refine ⟨?_, ?_, ?_, ?_⟩ <;> intro he <;>
    simp [mkTxFrom, parseOptSig, toU8, he, Tx.isSigned]

/-- Empty-byte secondary signature data, as produced by decoding an
unsigned serialized form. -/
def tdEmptySecondary : TxData :=
  { pV := some (.bytes []), pR := some (.bytes []), pS := some (.bytes []) }

/-- Witness for C10 at the concrete all-empty input. -/
theorem claim_empty_secondary_sig_absent_witness :
    (mkTxFrom tdEmptySecondary testOpts).pV = none ∧
    (mkTxFrom tdEmptySecondary testOpts).pR = none ∧
    (mkTxFrom tdEmptySecondary testOpts).pS = none ∧
    (mkTxFrom tdEmptySecondary testOpts).isSigned = false := by
  have h := claim_empty_secondary_sig_absent tdEmptySecondary testOpts
    (mkTxFrom tdEmptySecondary testOpts) (by decide)
  exact ⟨h.1 rfl, h.2.1 rfl, h.2.2.1 rfl, h.2.2.2 rfl⟩

/-- Input supplying the secondary-signature component `pR = 2^256`, which
exceeds `MAX_INTEGER`. -/
def tdOverflowingPR : TxData := { pR := some (.big (2 ^ 256)) }

/-- C4 (code-bug exhibit): the constructor reads `this.pR` and `this.pS`
for the bound-256 check before assigning them, so the check sees
`undefined` and never applies to pR and pS: construction with
`pR = 2^256` succeeds and stores the out-of-range value instead of
failing with `IntegerOverflow`. -/
theorem claim_pR_bound_not_enforced :
    fromTxDataImpl tdOverflowingPR testOpts
      = .ok (mkTxFrom tdOverflowingPR testOpts) ∧
    (mkTxFrom tdOverflowingPR testOpts).pR = some (2 ^ 256) ∧
    MAX_INTEGER < 2 ^ 256 := by
  refine ⟨by decide, by decide, by decide⟩

/-- C8: `getSenderAndPriorityPublicKey()` fails with `NotSigned` unless
signed; when signed, it re-runs the low-s check on both s and pS and
fails with `HighSSignature` if either exceeds half the curve order under
the homestead upgrade; otherwise it recovers the two public keys
independently from the same unsigned-message digest, one from (v, r, s)
and one from (pV, pR, pS), and a failed recovery of either makes the
whole call fail with `InvalidSignature` with no partial result. -/
theorem claim_dual_recovery :
    ∀ (keccak : Bytes → Bytes)
      (ecrecover : Bytes → Nat → Bytes → Bytes → Option Bytes) (tx : Tx),
    (tx.isSigned = false →
      tx.getSenderAndPriorityPublicKey keccak ecrecover = .error .NotSigned) ∧
    (tx.isSigned = true →
      badHighS tx.common.gteHomestead tx.s = true ∨
        badHighS tx.common.gteHomestead tx.pS = true →
      tx.getSenderAndPriorityPublicKey keccak ecrecover = .error .HighSSignature) ∧
    (tx.isSigned = true → tx.validateHighS = .ok () →
      (∀ pk pPk : Bytes,
        ecrecover (tx.getMessageToVerifySignature keccak) (tx.v.getD 0 + 27)
          (natToBEBytes (tx.r.getD 0)) (natToBEBytes (tx.s.getD 0)) = some pk →
        ecrecover (tx.getMessageToVerifySignature keccak) (tx.pV.getD 0 + 27)
          (natToBEBytes (tx.pR.getD 0)) (natToBEBytes (tx.pS.getD 0)) = some pPk →
        tx.getSenderAndPriorityPublicKey keccak ecrecover = .ok (pk, pPk)) ∧
      (ecrecover (tx.getMessageToVerifySignature keccak) (tx.v.getD 0 + 27)
          (natToBEBytes (tx.r.getD 0)) (natToBEBytes (tx.s.getD 0)) = none ∨
        ecrecover (tx.getMessageToVerifySignature keccak) (tx.pV.getD 0 + 27)
          (natToBEBytes (tx.pR.getD 0)) (natToBEBytes (tx.pS.getD 0)) = none →
        tx.getSenderAndPriorityPublicKey keccak ecrecover
          = .error .InvalidSignature)) := by
  intro keccak ecrecover tx
  refine ⟨?_, ?_, ?_⟩
  · intro h
    simp [Tx.getSenderAndPriorityPublicKey, h]
  · intro hs hbad
    have hhs : tx.validateHighS = .error .HighSSignature := by
      rcases hbad with hb | hb
      · simp [Tx.validateHighS, hb]
      · simp only [Tx.validateHighS]
        split_ifs <;> simp_all
    simp [Tx.getSenderAndPriorityPublicKey, hs, hhs]
  · intro hs hok
    constructor
    · intro pk pPk h1 h2
      simp [Tx.getSenderAndPriorityPublicKey, hs, hok, h1, h2]
    · intro hfail
      rcases hfail with hf | hf
      · simp [Tx.getSenderAndPriorityPublicKey, hs, hok, hf]
      · simp only [Tx.getSenderAndPriorityPublicKey, hs, hok, hf,
          Bool.not_true, Bool.false_eq_true, if_false]
        split <;> simp_all

/-- Witness for C8: with a recovery primitive that always succeeds the
signed test transaction yields both keys; with one that always fails the
whole call degrades to `InvalidSignature`; the unsigned default
transaction fails with `NotSigned`. -/
theorem claim_dual_recovery_witness :
    Tx.getSenderAndPriorityPublicKey (fun b => b) (fun _ _ _ _ => some [7])
      (mkTxFrom tdSignedExample testOpts) = .ok ([7], [7]) ∧
    Tx.getSenderAndPriorityPublicKey (fun b => b) (fun _ _ _ _ => none)
      (mkTxFrom tdSignedExample testOpts) = .error .InvalidSignature ∧
    Tx.getSenderAndPriorityPublicKey (fun b => b) (fun _ _ _ _ => some [7])
      (mkTxFrom {} testOpts) = .error .NotSigned :=
  ⟨((claim_dual_recovery (fun b => b) (fun _ _ _ _ => some [7])
      (mkTxFrom tdSignedExample testOpts)).2.2 (by decide) (by decide)).1
      [7] [7] rfl rfl,
   ((claim_dual_recovery (fun b => b) (fun _ _ _ _ => none)
      (mkTxFrom tdSignedExample testOpts)).2.2 (by decide) (by decide)).2
      (Or.inl rfl),
   (claim_dual_recovery (fun b => b) (fun _ _ _ _ => some [7])
      (mkTxFrom {} testOpts)).1 (by decide)⟩

/-- The even-padded byte form of a number is never empty (zero renders as
the byte 0x00). -/
theorem bigToBytesPadded_ne_nil (n : Nat) : bigToBytesPadded n ≠ [] := by
  unfold bigToBytesPadded
  split
  · simp
  · match n with
    | m + 1 => simp [natToBEBytes, natToBEBytesAux]

/-- C9: `sign(privateKey, priorityPrivateKey)` on a constructed
transaction returns a fresh transaction value (the source is untouched:
`Tx.sign` is a pure function of it) that carries the original unsigned
fields plus both signature triples and so is signed; the freeze flag of
the source's options propagates, so an unfrozen source yields an unfrozen
signed instance, while construction with freezing enabled (explicit or by
default) marks the source frozen. -/
theorem claim_sign_returns_new_instance :
    ∀ (keccak : Bytes → Bytes) (prim : Bytes → Bytes → SigRaw)
      (td : TxData) (opts : TxOptions) (src tx' : Tx) (k1 k2 : Bytes),
    fromTxDataImpl td opts = .ok src →
    Tx.sign keccak prim src k1 (some k2) = .ok tx' →
    (tx'.chainId = src.chainId ∧ tx'.nonce = src.nonce ∧
     tx'.maxPriorityFeePerGas = src.maxPriorityFeePerGas ∧
     tx'.maxFeePerGas = src.maxFeePerGas ∧ tx'.gasLimit = src.gasLimit ∧
     tx'.«to» = src.«to» ∧ tx'.value = src.value ∧ tx'.data = src.data ∧
     tx'.accessList = src.accessList) ∧
    tx'.isSigned = true ∧
    tx'.frozen = src.frozen ∧
    (opts.freeze = some false → src.frozen = false ∧ tx'.frozen = false) ∧
    (opts.freeze = some true ∨ opts.freeze = none → src.frozen = true) := by
  intro keccak prim td opts src tx' k1 k2 hsrc hsign
  have hsrc' : src = mkTxFrom td opts := fromTxDataImpl_ok hsrc
  simp only [Tx.sign] at hsign
  split_ifs at hsign with hlen
  have htx' := fromTxDataImpl_ok hsign
  subst htx'
  subst hsrc'
  refine ⟨⟨?_, ?_, ?_, ?_, ?_, ?_, ?_, ?_, ?_⟩, ?_, ?_, ?_, ?_⟩
  · simp [mkTxFrom, getCommonModel]
  · simp [mkTxFrom, toU8, uint8ArrayToBigInt_bigToBytesPadded]
  · simp [mkTxFrom, toU8, uint8ArrayToBigInt_bigToBytesPadded]
  · simp [mkTxFrom, toU8, uint8ArrayToBigInt_bigToBytesPadded]
  · simp [mkTxFrom, toU8, uint8ArrayToBigInt_bigToBytesPadded]
  · by_cases hto : (td.«to».getD []).length > 0 <;> simp [mkTxFrom, hto]
  · simp [mkTxFrom, toU8, uint8ArrayToBigInt_bigToBytesPadded]
  · simp [mkTxFrom]
  · simp [mkTxFrom]
  · simp [mkTxFrom, Tx.isSigned, parseOptSig, toU8,
      List.length_pos, bigToBytesPadded_ne_nil]
  · simp [mkTxFrom]
  · intro h
    simp [mkTxFrom, h]
  · intro h
    rcases h with h | h <;> simp [mkTxFrom, h]

/-- A deterministic signing primitive for concrete evaluation: compact
signature with r = 1 and s = 1, recovery bit 0. -/
def primExample : Bytes → Bytes → SigRaw := fun _ _ =>
  { compact := List.replicate 31 0 ++ [1] ++ List.replicate 31 0 ++ [1],
    recovery := 0 }

/-- Options with freezing disabled. -/
def optsUnfrozen : TxOptions := { freeze := some false, common := some testCommon }

/-- An unfrozen source transaction for the signing witness. -/
def srcExample : Tx := mkTxFrom tdGoodOrdering optsUnfrozen

/-- A 32-byte primary key for the signing witness. -/
def keyA : Bytes := List.replicate 32 2

/-- A 32-byte secondary key for the signing witness. -/
def keyB : Bytes := List.replicate 32 3

/-- The transaction produced by signing the witness source. -/
def signedExampleTx : Tx :=
  (Tx.sign (fun b => b) primExample srcExample keyA (some keyB)).toOption.get
    (by decide)

/-- Witness for C9: signing the unfrozen source succeeds, the source is
unfrozen, the result is a distinct signed unfrozen value carrying the
source's unsigned fields; a source constructed with default options is
frozen. -/
theorem claim_sign_returns_new_instance_witness :
    Tx.sign (fun b => b) primExample srcExample keyA (some keyB)
      = .ok signedExampleTx ∧
    srcExample.frozen = false ∧ signedExampleTx.frozen = false ∧
    signedExampleTx.isSigned = true ∧
    signedExampleTx.nonce = srcExample.nonce ∧
    (mkTxFrom tdGoodOrdering testOpts).frozen = true := by
  have h1 : fromTxDataImpl tdGoodOrdering optsUnfrozen = .ok srcExample := by
    decide
  have h2 : Tx.sign (fun b => b) primExample srcExample keyA (some keyB)
      = .ok signedExampleTx := by decide
  have H := claim_sign_returns_new_instance (fun b => b) primExample
    tdGoodOrdering optsUnfrozen srcExample signedExampleTx keyA keyB h1 h2
  exact ⟨h2, (H.2.2.2.1 rfl).1, (H.2.2.2.1 rfl).2, H.2.1, H.1.2.1,
    by decide⟩

end ETNIP1
